import Mathlib

/-!
Shallow embedding of `src/bradesco_insight_app.py`, a Streamlit dashboard
over a fraud-score dataset, a customer-segmentation dataset and a
pre-trained classifier.  DataFrame rows are association lists from column
names to `Value`s; monetary amounts, incomes and fraud probabilities are
rationals; pandas/sklearn primitives used by the script (`LabelEncoder`
lookup, column selection, `groupby(...).mean()`, `value_counts`,
`sort_values`) are embedded as executable Lean functions.
-/

namespace Bradesco

/-- Scalar cell values appearing in the app's single-row DataFrames and in
the warehouse tables: integers, rationals (Python floats), and strings. -/
inductive Value where
  | int (n : Int)
  | rat (q : ℚ)
  | str (s : String)
deriving DecidableEq, Repr

/-- A DataFrame row: an association list from column name to value, in
column order. -/
abbrev Row := List (String × Value)

/-- Read a cell as a rational, the way pandas arithmetic consumes a numeric
column (the app only applies this to numeric columns). -/
def Value.asRat : Value → ℚ
  | .int n => (n : ℚ)
  | .rat q => q
  | .str _ => 0

/-- Read a cell as a string, the way `new_transaction[col].iloc[0]` feeds a
categorical column into `encoder.transform` (the app only applies this to
string columns). -/
def Value.asStr : Value → String
  | .str s => s
  | _ => ""

/-- Pandas column assignment `row[c] = v`: overwrite the column in place if
it exists, otherwise append it as the new last column. -/
def setCol (row : Row) (c : String) (v : Value) : Row :=
  if row.lookup c = none then row ++ [(c, v)]
  else row.map (fun p => if p.1 = c then (c, v) else p)

/-- Numeric read of a column, defaulting to 0 when absent (built rows always
carry the columns this is applied to). -/
def colRat (row : Row) (c : String) : ℚ :=
  match row.lookup c with
  | some v => v.asRat
  | none => 0

/-! ### Risk-tier classification (scoring view, second copy lines 649-657)

```python
if fraud_score >= 0.8:   st.error("ALTO RISCO DE FRAUDE!")
elif fraud_score >= 0.4: st.warning("MEDIO RISCO DE FRAUDE!")
else:                    st.success("BAIXO RISCO DE FRAUDE.")
```
-/

/-- The three risk tiers the scoring view renders. -/
inductive RiskTier where
  | high
  | medium
  | low
deriving DecidableEq, Repr

/-- Risk-tier branching on the predicted fraud probability, exactly as in
the source: `>= 0.8` high, `elif >= 0.4` medium, else low. -/
def riskTier (fraud_score : ℚ) : RiskTier :=
  if fraud_score ≥ 0.8 then .high
  else if fraud_score ≥ 0.4 then .medium
  else .low

/-! ### Derived feature (scoring view, second copy line 613)

```python
new_transaction['amount_per_income'] = new_transaction['amount'] / (new_transaction['income'] + 1e-6)
```
-/

/-- The derived feature: amount divided by income plus the small constant
`1e-6` guarding against a zero income. -/
def amountPerIncome (amount income : ℚ) : ℚ :=
  amount / (income + 1e-6)

/-- Add the `amount_per_income` column to the scoring row, computed from its
`amount` and `income` columns. -/
def addAmountPerIncome (row : Row) : Row :=
  setCol row "amount_per_income"
    (.rat (amountPerIncome (colRat row "amount") (colRat row "income")))

/-! ### Scoring form and pipeline (second copy lines 593-644)

The form collects twelve fields; the submitted row additionally fixes
`account_type = 'Unknown'` and `customer_segment = 0` as placeholders, adds
the derived `amount_per_income`, encodes categoricals, selects and reorders
the model features, and calls `predict_proba`.  The loaded `scaler` and
`kmeans_model` are in scope but never applied to the scoring input.
-/

/-- The fields collected by the `transaction_form`. -/
structure FormInput where
  amount : ℚ
  income : ℚ
  balance : ℚ
  transaction_hour : Nat
  transaction_day_of_week : Nat
  customer_age_at_transaction : Nat
  transaction_type : String
  merchant_category : String
  location : String
  device_info : String
  marital_status : String
  profession : String
deriving DecidableEq, Repr

/-- The single-row DataFrame literal built on form submission, in the
source's column order, with the two placeholder columns. -/
def buildNewTransaction (inp : FormInput) : Row :=
  [("amount", .rat inp.amount),
   ("income", .rat inp.income),
   ("balance", .rat inp.balance),
   ("transaction_hour", .int inp.transaction_hour),
   ("transaction_day_of_week", .int inp.transaction_day_of_week),
   ("customer_age_at_transaction", .int inp.customer_age_at_transaction),
   ("transaction_type", .str inp.transaction_type),
   ("merchant_category", .str inp.merchant_category),
   ("location", .str inp.location),
   ("device_info", .str inp.device_info),
   ("account_type", .str "Unknown"),
   ("marital_status", .str inp.marital_status),
   ("profession", .str inp.profession),
   ("customer_segment", .int 0)]

/-- A concrete form submission matching the form's default widget values,
used to evaluate the pipeline at a specific input. -/
def exampleFormInput : FormInput where
  amount := 1000
  income := 5000
  balance := 20000
  transaction_hour := 15
  transaction_day_of_week := 2
  customer_age_at_transaction := 30
  transaction_type := "PIX"
  merchant_category := "Food"
  location := "SP"
  device_info := "mobile"
  marital_status := "single"
  profession := "engineer"

/-- A fitted `LabelEncoder`: the finite map from training-vocabulary strings
to their learned integer codes. -/
abbrev EncMap := List (String × Int)

/-- `encoder.transform([v])[0]`: `some code` when the value is in the
training vocabulary, `none` modelling the `ValueError` raised on an unseen
value (a non-string cell is likewise unseen by a string-fitted encoder). -/
def encoderTransform (enc : EncMap) : Value → Option Int
  | .str s => enc.lookup s
  | _ => none

/-- Warnings surfaced by `st.warning` during encoding: the offending
(column, value) pairs. -/
abbrev Warnings := List (String × String)

/-- One iteration of the `for col, encoder in fraud_encoders.items()` loop:
if the row has the column, encode it, falling back to -1 with a warning on
an unseen value; if the row lacks the column, set the encoded column to -1. -/
def encodeColumn (col : String) (enc : EncMap) (st : Row × Warnings) :
    Row × Warnings :=
  match st.1.lookup col with
  | some v =>
    match encoderTransform enc v with
    | some code => (setCol st.1 (col ++ "_encoded") (.int code), st.2)
    | none => (setCol st.1 (col ++ "_encoded") (.int (-1)), st.2 ++ [(col, v.asStr)])
  | none => (setCol st.1 (col ++ "_encoded") (.int (-1)), st.2)

/-- The whole encoder loop, over the encoder dictionary in iteration order. -/
def applyEncoders (fraud_encoders : List (String × EncMap)) (row : Row) :
    Row × Warnings :=
  fraud_encoders.foldl (fun st ce => encodeColumn ce.1 ce.2 st) (row, [])

/-- Column selection `row[names]`: the sub-row at the given column names, in
that order, dropping names whose lookup fails. -/
def selRow (g : String → Option Value) (names : List String) : Row :=
  names.filterMap (fun f => (g f).map (fun v => (f, v)))

/-- Feature selection and reordering of the scoring view:
`X = row[[f for f in fraud_features_names if f in row.columns]]`, then the
missing-feature check aborting with the exact missing list, then the
reorder `X[fraud_features_names]`. -/
def selectModelFeatures (fraud_features_names : List String) (row : Row) :
    Except (List String) Row :=
  let X : Row :=
    selRow row.lookup (fraud_features_names.filter fun f => (row.lookup f).isSome)
  let missing := fraud_features_names.filter fun f => (X.lookup f).isNone
  if missing.isEmpty then .ok (selRow X.lookup fraud_features_names)
  else .error missing

/-- The scoring row as it stands right before feature selection: built from
the form, with `amount_per_income` derived and all categoricals encoded. -/
def encodedScoringRow (fraud_encoders : List (String × EncMap))
    (inp : FormInput) : Row :=
  (applyEncoders fraud_encoders (addAmountPerIncome (buildNewTransaction inp))).1

/-- The full scoring path on form submission: build the row, derive
`amount_per_income`, encode categoricals, select/reorder features, and call
`predict_proba` taking the positive-class probability.  `scaler` and
`kmeans_model` are in scope, as in the source, but unused. -/
def scoringPipeline (fraud_encoders : List (String × EncMap))
    (fraud_features_names : List String) (predict_proba : Row → ℚ)
    (scaler : Row → Row) (kmeans_model : Row → Int) (inp : FormInput) :
    Except (List String) ℚ :=
  (selectModelFeatures fraud_features_names (encodedScoringRow fraud_encoders inp)).map
    predict_proba

/-! ### Warehouse datasets (lines 79-90) and the views over them

`get_customers_data` and `get_transactions_data` run the two fixed
`SELECT *` queries and return the result DataFrames as-is
(`client.query(query).to_dataframe()`); the warehouse table contents are the
function's input here.  A transaction's `transaction_date` is `none` when
the stored timestamp is malformed (fails to parse); `customer_id` columns
keep whatever representation the warehouse holds, modelled as a `Value`.
-/

/-- A row of the `customers_segmented` table, restricted to the columns the
claims touch; further numeric attributes are reached uniformly through an
attribute function in the aggregation statements. -/
structure CustomerRow where
  customer_id : Value
  customer_segment : Int
  age : ℚ
  income : ℚ
deriving DecidableEq, Repr

/-- A row of the `transactions_with_fraud_score` table, restricted to the
columns the claims touch. -/
structure TransactionRow where
  transaction_id : Int
  customer_id : Value
  transaction_date : Option Int
  amount : ℚ
  transaction_type : String
  merchant_category : String
  fraud_score : ℚ
  is_fraudulent : Bool
deriving DecidableEq, Repr

/-- `get_customers_data`: the fixed `SELECT *` query result, returned
unchanged as an in-memory DataFrame. -/
def get_customers_data (warehouse_customers : List CustomerRow) :
    List CustomerRow :=
  warehouse_customers

/-- `get_transactions_data`: the fixed `SELECT *` query result, returned
unchanged as an in-memory DataFrame. -/
def get_transactions_data (warehouse_transactions : List TransactionRow) :
    List TransactionRow :=
  warehouse_transactions

/-- Descending `sort_values(by='transaction_date')` comparison; a malformed
(`none`) date sorts last, as pandas places missing values last. -/
def dateKey : Option Int → WithBot Int
  | none => ⊥
  | some n => (n : WithBot Int)

/-- Descending date comparison proper. -/
def byDateDesc (a b : TransactionRow) : Bool :=
  decide (dateKey b.transaction_date ≤ dateKey a.transaction_date)

/-- The profile view's recent-transactions lookup (second copy line 761):
filter by `customer_id == customer_id` (raw equality against the parsed
integer), sort by date descending, keep the first ten. -/
def customerTransactions (transactions_df : List TransactionRow)
    (customer_id : Int) : List TransactionRow :=
  ((transactions_df.filter fun t => t.customer_id == .int customer_id).mergeSort
    byDateDesc).take 10

/-- A transaction whose stored timestamp is malformed and whose
`customer_id` is the integer 7. -/
def malformedDateRow : TransactionRow where
  transaction_id := 1
  customer_id := .int 7
  transaction_date := none
  amount := 50
  transaction_type := "PIX"
  merchant_category := "Food"
  fraud_score := 1
  is_fraudulent := true

/-- A transaction whose `customer_id` is the string rendering of 7. -/
def strIdRow : TransactionRow where
  transaction_id := 2
  customer_id := .str "7"
  transaction_date := some 100
  amount := 60
  transaction_type := "TED"
  merchant_category := "Retail"
  fraud_score := 0
  is_fraudulent := false

/-- A concrete two-customer dataset, both in segment 1, with incomes 100 and
200. -/
def exampleCustomers : List CustomerRow :=
  [{ customer_id := .int 1, customer_segment := 1, age := 30, income := 100 },
   { customer_id := .int 2, customer_segment := 1, age := 40, income := 200 }]

/-- A concrete two-transaction dataset with no flagged-fraudulent rows. -/
def exampleTransactions : List TransactionRow :=
  [{ transaction_id := 10, customer_id := .int 1, transaction_date := some 5,
     amount := 30, transaction_type := "PIX", merchant_category := "Food",
     fraud_score := 0.5, is_fraudulent := false },
   { transaction_id := 11, customer_id := .int 2, transaction_date := some 6,
     amount := 40, transaction_type := "TED", merchant_category := "Retail",
     fraud_score := 0.9, is_fraudulent := false }]

/-! ### Customer profile lookup (second copy lines 715-769) -/

/-- The three outcomes the profile view renders. -/
inductive ProfileOutcome where
  | profile (c : CustomerRow)
  | notFound
  | invalidInput
deriving DecidableEq, Repr

/-- Decimal digit test on a character. -/
def isDigit (c : Char) : Bool :=
  48 ≤ c.toNat && c.toNat ≤ 57

/-- Value of a digit string. -/
def digitsToNat (ds : List Char) : Nat :=
  ds.foldl (fun acc c => 10 * acc + (c.toNat - 48)) 0

/-- Python `int(s)`: `some` the parsed integer, `none` modelling the
`ValueError` on a string that is not an integer numeral (surrounding
whitespace is accepted, as `int` strips it). -/
def pyInt (s : String) : Option Int :=
  match (((s.data.dropWhile (· == ' ')).reverse.dropWhile (· == ' ')).reverse :
      List Char) with
  | [] => none
  | '-' :: ds =>
    if ds ≠ [] ∧ ds.all isDigit then some (-(digitsToNat ds : Int)) else none
  | '+' :: ds =>
    if ds ≠ [] ∧ ds.all isDigit then some (digitsToNat ds : Int) else none
  | ds =>
    if ds.all isDigit then some (digitsToNat ds : Int) else none

/-- The profile view's outcome on a submitted identifier:
`int(customer_id_input)` inside `try`, the `customers_df['customer_id'] ==
customer_id` filter with its `.empty` check, the `not found` warning, and
the `except ValueError` invalid-input warning. -/
def perfilDoCliente (customers_df : List CustomerRow)
    (customer_id_input : String) : ProfileOutcome :=
  match pyInt customer_id_input with
  | none => .invalidInput
  | some customer_id =>
    match customers_df.filter fun c => c.customer_id == .int customer_id with
    | [] => .notFound
    | c :: _ => .profile c

/-! ### Aggregations of the dashboard and profile views -/

/-- First-occurrence list of the distinct values of a column, as
`groupby`/`value_counts` enumerate group keys. -/
def distinctVals {α : Type} [DecidableEq α] (l : List α) : List α :=
  l.foldl (fun acc k => if k ∈ acc then acc else acc ++ [k]) []

/-- The mean of one numeric attribute over the customers of one segment. -/
def segMean (customers_df : List CustomerRow) (attr : CustomerRow → ℚ)
    (seg : Int) : ℚ :=
  let grp := customers_df.filter fun c => c.customer_segment == seg
  (grp.map attr).sum / (grp.length : ℚ)

/-- `customers_df.groupby('customer_segment')[features].mean()` for one
numeric attribute: the per-segment means, indexed by segment label. -/
def segmentMeans (customers_df : List CustomerRow) (attr : CustomerRow → ℚ) :
    List (Int × ℚ) :=
  (distinctVals (customers_df.map (·.customer_segment))).map fun seg =>
    (seg, segMean customers_df attr seg)

/-- `value_counts` of a column: each distinct value with its number of
occurrences (the display ordering by count does not affect lookups). -/
def value_counts {α : Type} [DecidableEq α] (l : List α) : List (α × Nat) :=
  (distinctVals l).map fun v => (v, (l.filter fun x => x == v).length)

/-- The `Transações Fraudulentas Identificadas` metric:
`transactions_df['is_fraudulent'].value_counts().get(True, 0)`. -/
def fraudulentCount (transactions_df : List TransactionRow) : Nat :=
  ((value_counts (transactions_df.map (·.is_fraudulent))).lookup true).getD 0

/-- Descending `sort_values(by='fraud_score')` comparison. -/
def byScoreDesc (a b : TransactionRow) : Bool :=
  decide (b.fraud_score ≤ a.fraud_score)

/-- The `Top 10` fraud table of the dashboard: the flagged-fraudulent rows
sorted by score; when none exist, an informational notice (the boolean) and
the ten highest-scored transactions overall. -/
def topFraudulent (transactions_df : List TransactionRow) :
    Bool × List TransactionRow :=
  let fr := (transactions_df.filter fun t => t.is_fraudulent == true).mergeSort
    byScoreDesc
  if fr.isEmpty then (true, (transactions_df.mergeSort byScoreDesc).take 10)
  else (false, fr.take 10)

theorem lookup_append_of_eq_none {row : Row} {c : String} {l : Row}
    (h : row.lookup c = none) : (row ++ l).lookup c = l.lookup c := by
  induction row with
  | nil => rfl
  | cons p t ih =>
    obtain ⟨k, w⟩ := p
    cases hb : (c == k) with
    | true =>
      simp only [List.lookup_cons, hb] at h
      exact absurd h (by simp)
    | false =>
      simp only [List.lookup_cons, hb] at h
      simp only [List.cons_append, List.lookup_cons, hb]
      exact ih h

theorem lookup_map_overwrite {row : Row} {c : String} (v : Value)
    (h : row.lookup c ≠ none) :
    (row.map (fun p => if p.1 = c then (c, v) else p)).lookup c = some v := by
  induction row with
  | nil => simp [List.lookup] at h
  | cons p t ih =>
    obtain ⟨k, w⟩ := p
    by_cases hkc : k = c
    · subst hkc
      simp
    · have hb : (c == k) = false := beq_eq_false_iff_ne.mpr fun hc => hkc hc.symm
      simp only [List.lookup_cons, hb] at h
      simp only [List.map_cons]
      rw [if_neg (by simpa using hkc)]
      simp only [List.lookup_cons, hb]
      exact ih h

/-- Writing a column then reading it back yields the written value. -/
theorem lookup_setCol_self (row : Row) (c : String) (v : Value) :
    (setCol row c v).lookup c = some v := by
  unfold setCol
  by_cases h : row.lookup c = none
  · rw [if_pos h, lookup_append_of_eq_none h]
    simp [List.lookup]
  · rw [if_neg h]
    exact lookup_map_overwrite v h

theorem lookup_selRow_of_none {g : String → Option Value} {f : String}
    (h : g f = none) (l : List String) : (selRow g l).lookup f = none := by
  induction l with
  | nil => rfl
  | cons x t ih =>
    unfold selRow at ih ⊢
    cases hgx : g x with
    | none => simpa [hgx] using ih
    | some v =>
      simp only [List.filterMap_cons, hgx, Option.map_some']
      cases hfx : (f == x) with
      | true =>
        exact absurd (beq_iff_eq.mp hfx ▸ h) (by simp [hgx])
      | false =>
        simp only [List.lookup_cons, hfx]
        exact ih

theorem lookup_selRow_present {g : String → Option Value} {f : String}
    {names : List String} (h : f ∈ names) :
    (selRow g (names.filter fun x => (g x).isSome)).lookup f = g f := by
  induction names with
  | nil => simp at h
  | cons x t ih =>
    by_cases hfx : f = x
    · subst hfx
      cases hgf : g f with
      | none =>
        rw [List.filter_cons_of_neg (by simp [hgf])]
        exact lookup_selRow_of_none hgf _
      | some v =>
        rw [List.filter_cons_of_pos (by simp [hgf])]
        unfold selRow
        simp [List.filterMap_cons, hgf]
    · have hft : f ∈ t := by
        rcases List.mem_cons.mp h with h' | h'
        · exact absurd h' hfx
        · exact h'
      cases hgx : g x with
      | none =>
        rw [List.filter_cons_of_neg (by simp [hgx])]
        exact ih hft
      | some v =>
        rw [List.filter_cons_of_pos (by simp [hgx])]
        unfold selRow at ih ⊢
        simp only [List.filterMap_cons, hgx, Option.map_some']
        have hb : (f == x) = false := beq_eq_false_iff_ne.mpr hfx
        simp only [List.lookup_cons, hb]
        exact ih hft

theorem map_fst_selRow {g : String → Option Value} {names : List String}
    (h : ∀ f ∈ names, (g f).isSome) :
    (selRow g names).map Prod.fst = names := by
  induction names with
  | nil => rfl
  | cons x t ih =>
    obtain ⟨v, hv⟩ := Option.isSome_iff_exists.mp (h x (List.mem_cons_self x t))
    unfold selRow at ih ⊢
    simp only [List.filterMap_cons, hv, Option.map_some', List.map_cons]
    exact congrArg (x :: ·) (ih fun f hf => h f (List.mem_cons_of_mem x hf))

theorem lookup_map_pair {α β : Type} [BEq α] [LawfulBEq α] (g : α → β)
    {l : List α} {a : α} {m : β}
    (h : (l.map fun k => (k, g k)).lookup a = some m) : m = g a := by
  induction l with
  | nil => simp at h
  | cons x t ih =>
    simp only [List.map_cons, List.lookup_cons] at h
    cases hax : (a == x) with
    | true =>
      simp only [hax] at h
      obtain rfl : a = x := eq_of_beq hax
      exact (Option.some.inj h).symm
    | false =>
      simp only [hax] at h
      exact ih h

theorem lookup_map_pair_none {α β : Type} [BEq α] [LawfulBEq α] (g : α → β)
    {l : List α} {a : α} (h : a ∉ l) :
    (l.map fun k => (k, g k)).lookup a = none := by
  induction l with
  | nil => rfl
  | cons x t ih =>
    have hax : (a == x) = false :=
      beq_eq_false_iff_ne.mpr fun hc => h (hc ▸ List.mem_cons_self x t)
    simp only [List.map_cons, List.lookup_cons, hax]
    exact ih fun hm => h (List.mem_cons_of_mem x hm)

theorem mem_foldl_distinct {α : Type} [DecidableEq α] :
    ∀ (l acc : List α) (x : α),
      x ∈ l.foldl (fun acc k => if k ∈ acc then acc else acc ++ [k]) acc →
      x ∈ acc ∨ x ∈ l := by
  intro l
  induction l with
  | nil => exact fun acc x hx => Or.inl hx
  | cons k t ih =>
    intro acc x hx
    rcases ih _ x hx with hacc | ht
    · by_cases hk : k ∈ acc
      · simp only [if_pos hk] at hacc
        exact Or.inl hacc
      · simp only [if_neg hk] at hacc
        rcases List.mem_append.mp hacc with h' | h'
        · exact Or.inl h'
        · exact Or.inr (List.mem_cons.mpr (Or.inl (List.mem_singleton.mp h')))
    · exact Or.inr (List.mem_cons_of_mem k ht)

theorem mem_of_mem_distinctVals {α : Type} [DecidableEq α] {l : List α}
    {x : α} (hx : x ∈ distinctVals l) : x ∈ l := by
  rcases mem_foldl_distinct l [] x hx with h | h
  · simp at h
  · exact h

/-- Helper: a successful feature selection yields a row whose columns are
exactly `fraud_features_names`, in that order. -/
theorem selectModelFeatures_ok {names : List String} {row X : Row}
    (h : selectModelFeatures names row = .ok X) : X.map Prod.fst = names := by
  simp only [selectModelFeatures] at h
  split at h
  case isTrue hempty =>
    rcases Except.ok.inj h with rfl
    apply map_fst_selRow
    intro f hf
    have hnone := List.filter_eq_nil_iff.mp (List.isEmpty_iff.mp hempty) f hf
    simpa [Option.isNone_iff_eq_none, Option.isSome_iff_ne_none] using hnone
  case isFalse => exact absurd h (by simp)

/-- Helper: a failed feature selection reports exactly the expected features
absent from the row, and the missing list is nonempty. -/
theorem selectModelFeatures_error {names : List String} {row : Row}
    {miss : List String} (h : selectModelFeatures names row = .error miss) :
    miss = names.filter (fun f => (row.lookup f).isNone) ∧ miss ≠ [] := by
  simp only [selectModelFeatures] at h
  split at h
  case isTrue => exact absurd h (by simp)
  case isFalse hne =>
    rcases Except.error.inj h with rfl
    constructor
    · apply List.filter_congr
      intro f hf
      rw [lookup_selRow_present hf]
    · intro hnil
      exact hne (List.isEmpty_iff.mpr hnil)

end Bradesco

/-- C3: for every scoring-form input, a feature vector handed to the
classifier's `predict_proba` has exactly the columns of the loaded
`fraud_features_names` list, in that exact order; and when any expected
feature is absent after encoding, the scoring request aborts with an error
naming exactly the missing features (the pipeline returns that request's
error value rather than a probability). -/
theorem claim3_feature_vector_alignment
    (fraud_encoders : List (String × Bradesco.EncMap))
    (fraud_features_names : List String) (predict_proba : Bradesco.Row → ℚ)
    (scaler : Bradesco.Row → Bradesco.Row) (kmeans_model : Bradesco.Row → Int)
    (inp : Bradesco.FormInput) :
    (∀ X, Bradesco.selectModelFeatures fraud_features_names
        (Bradesco.encodedScoringRow fraud_encoders inp) = .ok X →
      X.map Prod.fst = fraud_features_names ∧
      Bradesco.scoringPipeline fraud_encoders fraud_features_names predict_proba
        scaler kmeans_model inp = .ok (predict_proba X)) ∧
    (∀ miss, Bradesco.selectModelFeatures fraud_features_names
        (Bradesco.encodedScoringRow fraud_encoders inp) = .error miss →
      miss = fraud_features_names.filter
        (fun f => ((Bradesco.encodedScoringRow fraud_encoders inp).lookup f).isNone) ∧
      miss ≠ [] ∧
      Bradesco.scoringPipeline fraud_encoders fraud_features_names predict_proba
        scaler kmeans_model inp = .error miss) := by
  constructor
  · intro X h
    refine ⟨Bradesco.selectModelFeatures_ok h, ?_⟩
    unfold Bradesco.scoringPipeline
    rw [h]
    rfl
  · intro miss h
    obtain ⟨hmiss, hne⟩ := Bradesco.selectModelFeatures_error h
    refine ⟨hmiss, hne, ?_⟩
    unfold Bradesco.scoringPipeline
    rw [h]
    rfl

/-- C3 witness: with a one-feature model over `amount` the selection
succeeds and the pipeline scores the request; with a model expecting the
never-produced feature `zzz` the selection fails, the pipeline aborts and
reports exactly `[zzz]`. -/
theorem claim3_feature_vector_alignment_witness :
    (Bradesco.selectModelFeatures ["amount"]
        (Bradesco.encodedScoringRow [] Bradesco.exampleFormInput) =
      .ok [("amount", .rat 1000)]) ∧
    [("amount", Bradesco.Value.rat 1000)].map Prod.fst = ["amount"] ∧
    Bradesco.scoringPipeline [] ["amount"] (fun _ => 0.5) id (fun _ => 0)
      Bradesco.exampleFormInput = .ok 0.5 ∧
    (Bradesco.selectModelFeatures ["zzz"]
        (Bradesco.encodedScoringRow [] Bradesco.exampleFormInput) =
      .error ["zzz"]) ∧
    Bradesco.scoringPipeline [] ["zzz"] (fun _ => 0.5) id (fun _ => 0)
      Bradesco.exampleFormInput = .error ["zzz"] := by
  have hok :
      Bradesco.selectModelFeatures ["amount"]
        (Bradesco.encodedScoringRow [] Bradesco.exampleFormInput) =
      .ok [("amount", .rat 1000)] := by rfl
  have herr :
      Bradesco.selectModelFeatures ["zzz"]
        (Bradesco.encodedScoringRow [] Bradesco.exampleFormInput) =
      .error ["zzz"] := by rfl
  refine ⟨hok, ?_, ?_, herr, ?_⟩
  · exact (claim3_feature_vector_alignment [] ["amount"] (fun _ => 0.5) id
      (fun _ => 0) Bradesco.exampleFormInput).1 _ hok |>.1
  · exact (claim3_feature_vector_alignment [] ["amount"] (fun _ => 0.5) id
      (fun _ => 0) Bradesco.exampleFormInput).1 _ hok |>.2
  · exact ((claim3_feature_vector_alignment [] ["zzz"] (fun _ => 0.5) id
      (fun _ => 0) Bradesco.exampleFormInput).2 _ herr).2.2

/-- C4: per categorical column with a fitted encoder: a value seen in
training encodes to its learned integer code with no warning; an unseen
value encodes to the sentinel -1 and appends a user-facing warning while the
encoding step still returns normally; a column absent from the scoring row
encodes to -1 with no warning. -/
theorem claim4_encoder_sentinel_fallback (col : String) (enc : Bradesco.EncMap)
    (row : Bradesco.Row) (warns : Bradesco.Warnings) :
    (∀ s code, row.lookup col = some (.str s) → enc.lookup s = some code →
      (Bradesco.encodeColumn col enc (row, warns)).1.lookup (col ++ "_encoded") =
          some (.int code) ∧
        (Bradesco.encodeColumn col enc (row, warns)).2 = warns) ∧
    (∀ s, row.lookup col = some (.str s) → enc.lookup s = none →
      (Bradesco.encodeColumn col enc (row, warns)).1.lookup (col ++ "_encoded") =
          some (.int (-1)) ∧
        (Bradesco.encodeColumn col enc (row, warns)).2 = warns ++ [(col, s)]) ∧
    (row.lookup col = none →
      (Bradesco.encodeColumn col enc (row, warns)).1.lookup (col ++ "_encoded") =
          some (.int (-1)) ∧
        (Bradesco.encodeColumn col enc (row, warns)).2 = warns) := by
  refine ⟨fun s code h1 h2 => ?_, fun s h1 h2 => ?_, fun h1 => ?_⟩
  · simp only [Bradesco.encodeColumn, h1, Bradesco.encoderTransform, h2]
    exact ⟨Bradesco.lookup_setCol_self _ _ _, trivial⟩
  · simp only [Bradesco.encodeColumn, h1, Bradesco.encoderTransform, h2]
    exact ⟨Bradesco.lookup_setCol_self _ _ _, rfl⟩
  · simp only [Bradesco.encodeColumn, h1]
    exact ⟨Bradesco.lookup_setCol_self _ _ _, trivial⟩

/-- C4 witness: a two-word encoder on `transaction_type` maps the trained
value `PIX` to its code 0 with no warning, maps the unseen value `DOC` to -1
with one warning naming the column and value, and maps a missing column to
-1 with no warning. -/
theorem claim4_encoder_sentinel_fallback_witness :
    ((Bradesco.encodeColumn "transaction_type" [("PIX", 0), ("TED", 1)]
        ([("transaction_type", .str "PIX")], [])).1.lookup
        ("transaction_type" ++ "_encoded") = some (.int 0) ∧
      (Bradesco.encodeColumn "transaction_type" [("PIX", 0), ("TED", 1)]
        ([("transaction_type", .str "PIX")], [])).2 = []) ∧
    ((Bradesco.encodeColumn "transaction_type" [("PIX", 0), ("TED", 1)]
        ([("transaction_type", .str "DOC")], [])).1.lookup
        ("transaction_type" ++ "_encoded") = some (.int (-1)) ∧
      (Bradesco.encodeColumn "transaction_type" [("PIX", 0), ("TED", 1)]
        ([("transaction_type", .str "DOC")], [])).2 =
        [("transaction_type", "DOC")]) ∧
    ((Bradesco.encodeColumn "transaction_type" [("PIX", 0), ("TED", 1)]
        ([("amount", .rat 10)], [])).1.lookup
        ("transaction_type" ++ "_encoded") = some (.int (-1)) ∧
      (Bradesco.encodeColumn "transaction_type" [("PIX", 0), ("TED", 1)]
        ([("amount", .rat 10)], [])).2 = []) :=
  ⟨(claim4_encoder_sentinel_fallback "transaction_type" [("PIX", 0), ("TED", 1)]
      [("transaction_type", .str "PIX")] []).1 "PIX" 0 (by decide) (by decide),
   (claim4_encoder_sentinel_fallback "transaction_type" [("PIX", 0), ("TED", 1)]
      [("transaction_type", .str "DOC")] []).2.1 "DOC" (by decide) (by decide),
   (claim4_encoder_sentinel_fallback "transaction_type" [("PIX", 0), ("TED", 1)]
      [("amount", .rat 10)] []).2.2 (by decide)⟩

/-- C9: the assembled scoring row fixes `account_type` to the constant
string `Unknown` and `customer_segment` to the constant 0 for every form
input, and the scoring pipeline's outcome is independent of the loaded
scaler and clustering model, which are never applied to the scoring input. -/
theorem claim9_placeholders_and_unused_artifacts
    (fraud_encoders : List (String × Bradesco.EncMap))
    (fraud_features_names : List String) (predict_proba : Bradesco.Row → ℚ)
    (scaler₁ scaler₂ : Bradesco.Row → Bradesco.Row)
    (kmeans₁ kmeans₂ : Bradesco.Row → Int) (inp : Bradesco.FormInput) :
    (Bradesco.buildNewTransaction inp).lookup "account_type" =
        some (.str "Unknown") ∧
    (Bradesco.buildNewTransaction inp).lookup "customer_segment" =
        some (.int 0) ∧
    Bradesco.scoringPipeline fraud_encoders fraud_features_names predict_proba
        scaler₁ kmeans₁ inp =
      Bradesco.scoringPipeline fraud_encoders fraud_features_names predict_proba
        scaler₂ kmeans₂ inp :=
  ⟨rfl, rfl, rfl⟩

/-- C2: risk-tier classification is a total function of the fraud
probability alone with inclusive lower boundaries: `p ≥ 0.8` is high risk,
`0.4 ≤ p < 0.8` is medium risk, and `p < 0.4` is low risk. -/
theorem claim2_risk_tier_thresholds (p : ℚ) :
    (0.8 ≤ p → Bradesco.riskTier p = .high) ∧
    (0.4 ≤ p ∧ p < 0.8 → Bradesco.riskTier p = .medium) ∧
    (p < 0.4 → Bradesco.riskTier p = .low) := by
  unfold Bradesco.riskTier
  refine ⟨fun h => ?_, fun h => ?_, fun h => ?_⟩
  · rw [if_pos (by exact_mod_cast h)]
  · rw [if_neg (by push_neg; exact_mod_cast h.2), if_pos (by exact_mod_cast h.1)]
  · rw [if_neg (by push_neg; linarith), if_neg (by push_neg; exact_mod_cast h)]

/-- C2 witness: the tier at the boundary probabilities named by the claim:
0.0 and 0.39999 are low, 0.4 and 0.79999 are medium, 0.8 and 1.0 are high. -/
theorem claim2_risk_tier_thresholds_witness :
    Bradesco.riskTier 0 = .low ∧ Bradesco.riskTier 0.39999 = .low ∧
    Bradesco.riskTier 0.4 = .medium ∧ Bradesco.riskTier 0.79999 = .medium ∧
    Bradesco.riskTier 0.8 = .high ∧ Bradesco.riskTier 1 = .high :=
  ⟨(claim2_risk_tier_thresholds 0).2.2 (by norm_num),
   (claim2_risk_tier_thresholds 0.39999).2.2 (by norm_num),
   (claim2_risk_tier_thresholds 0.4).2.1 (by norm_num),
   (claim2_risk_tier_thresholds 0.79999).2.1 (by norm_num),
   (claim2_risk_tier_thresholds 0.8).1 (by norm_num),
   (claim2_risk_tier_thresholds 1).1 (by norm_num)⟩

/-- C5: `amount_per_income` is amount divided by (income + 1e-6); for every
non-negative amount and income the denominator is nonzero (so no
division-by-zero occurs) and the quotient times the denominator recovers the
amount; at amount = 1000 and income = 0 the feature equals 1.0e9. -/
theorem claim5_amount_per_income (a i : ℚ) (ha : 0 ≤ a) (hi : 0 ≤ i) :
    i + 1e-6 ≠ 0 ∧
    Bradesco.amountPerIncome a i = a / (i + 1e-6) ∧
    Bradesco.amountPerIncome a i * (i + 1e-6) = a ∧
    Bradesco.amountPerIncome 1000 0 = 1000000000 := by
  have hden : i + (1e-6 : ℚ) ≠ 0 := by positivity
  refine ⟨hden, rfl, ?_, ?_⟩
  · rw [Bradesco.amountPerIncome, div_mul_cancel₀ _ hden]
  · rw [Bradesco.amountPerIncome]
    norm_num

/-- C5 witness: instantiating at amount = 1000, income = 0 discharges the
non-negativity hypotheses and yields the concrete value 1.0e9. -/
theorem claim5_amount_per_income_witness :
    Bradesco.amountPerIncome 1000 0 = 1000000000 :=
  (claim5_amount_per_income 1000 0 (by norm_num) (by norm_num)).2.2.2

/-- C6 counterexample: on a warehouse table holding one row with a malformed
timestamp and an integer customer id, the dataset-access function neither
drops the malformed row nor normalizes the identifier to a string — so the
claim that it does fails at this input. -/
theorem claim6_counterexample :
    ¬ (∀ r ∈ Bradesco.get_transactions_data
          [Bradesco.malformedDateRow, Bradesco.strIdRow],
        r.transaction_date ≠ none ∧ ∃ s, r.customer_id = .str s) := by
  intro h
  obtain ⟨hdate, _⟩ := h Bradesco.malformedDateRow (List.mem_cons_self _ _)
  exact hdate rfl

/-- C6 amended: the dataset-access functions return the warehouse query
results unchanged — rows with malformed timestamps are retained and
identifier columns keep their original representation — and the
customer-transactions lookup matches by direct equality of the raw
`customer_id` value with the integer-parsed input, so an integer id 7
matches while the string `7` does not. -/
theorem claim6_amended_passthrough (tw : List Bradesco.TransactionRow)
    (cw : List Bradesco.CustomerRow) :
    Bradesco.get_transactions_data tw = tw ∧
    Bradesco.get_customers_data cw = cw ∧
    Bradesco.malformedDateRow ∈
      Bradesco.customerTransactions
        (Bradesco.get_transactions_data
          [Bradesco.malformedDateRow, Bradesco.strIdRow]) 7 ∧
    Bradesco.strIdRow ∉
      Bradesco.customerTransactions
        (Bradesco.get_transactions_data
          [Bradesco.malformedDateRow, Bradesco.strIdRow]) 7 := by
  have hfil : ([Bradesco.malformedDateRow, Bradesco.strIdRow].filter
      fun t => t.customer_id == Bradesco.Value.int 7) =
      [Bradesco.malformedDateRow] := by decide
  have hct : Bradesco.customerTransactions
      [Bradesco.malformedDateRow, Bradesco.strIdRow] 7 =
      [Bradesco.malformedDateRow] := by
    unfold Bradesco.customerTransactions
    rw [hfil, List.mergeSort_singleton]
    rfl
  refine ⟨rfl, rfl, ?_, ?_⟩
  · show Bradesco.malformedDateRow ∈ Bradesco.customerTransactions
      [Bradesco.malformedDateRow, Bradesco.strIdRow] 7
    rw [hct]
    exact List.mem_cons_self _ _
  · show Bradesco.strIdRow ∉ Bradesco.customerTransactions
      [Bradesco.malformedDateRow, Bradesco.strIdRow] 7
    rw [hct]
    intro hmem
    rw [List.mem_singleton] at hmem
    exact absurd hmem (by decide)

/-- C7: the profile lookup distinguishes three outcomes: a non-integer
identifier yields the invalid-input state, an integer identifier matching no
customer yields the not-found state, and an integer identifier matching
exactly one customer renders that customer's profile; invalid-input and
not-found are distinct states. -/
theorem claim7_profile_lookup_trichotomy
    (customers_df : List Bradesco.CustomerRow) (customer_id_input : String) :
    (Bradesco.pyInt customer_id_input = none →
      Bradesco.perfilDoCliente customers_df customer_id_input = .invalidInput) ∧
    (∀ cid, Bradesco.pyInt customer_id_input = some cid →
      customers_df.filter (fun c => c.customer_id == .int cid) = [] →
      Bradesco.perfilDoCliente customers_df customer_id_input = .notFound) ∧
    (∀ cid c, Bradesco.pyInt customer_id_input = some cid →
      customers_df.filter (fun c => c.customer_id == .int cid) = [c] →
      Bradesco.perfilDoCliente customers_df customer_id_input = .profile c) ∧
    Bradesco.ProfileOutcome.invalidInput ≠ Bradesco.ProfileOutcome.notFound := by
  refine ⟨fun h => ?_, fun cid h1 h2 => ?_, fun cid c h1 h2 => ?_, by simp⟩
  · unfold Bradesco.perfilDoCliente
    rw [h]
  · unfold Bradesco.perfilDoCliente
    simp only [h1, h2]
  · unfold Bradesco.perfilDoCliente
    simp only [h1, h2]

/-- C7 witness: on the two-customer dataset, id `1` renders that customer's
profile, id `7` is not found, and `abc` is invalid input. -/
theorem claim7_profile_lookup_trichotomy_witness :
    Bradesco.perfilDoCliente Bradesco.exampleCustomers "abc" = .invalidInput ∧
    Bradesco.perfilDoCliente Bradesco.exampleCustomers "7" = .notFound ∧
    Bradesco.perfilDoCliente Bradesco.exampleCustomers "1" =
      .profile { customer_id := .int 1, customer_segment := 1, age := 30,
                 income := 100 } :=
  ⟨(claim7_profile_lookup_trichotomy Bradesco.exampleCustomers "abc").1
      (by decide),
   (claim7_profile_lookup_trichotomy Bradesco.exampleCustomers "7").2.1 7
      (by decide) (by decide),
   (claim7_profile_lookup_trichotomy Bradesco.exampleCustomers "1").2.2.1 1 _
      (by decide) (by decide)⟩

/-- C8: a segment's entry in the `groupby('customer_segment').mean()` table
is the arithmetic mean — sum divided by count — of the numeric attribute
over exactly the customers carrying that segment label. -/
theorem claim8_segment_mean_aggregation
    (customers_df : List Bradesco.CustomerRow) (attr : Bradesco.CustomerRow → ℚ)
    (seg : Int) (m : ℚ)
    (h : (Bradesco.segmentMeans customers_df attr).lookup seg = some m) :
    m = ((customers_df.filter fun c => c.customer_segment == seg).map attr).sum /
        ((customers_df.filter fun c => c.customer_segment == seg).length : ℚ) := by
  unfold Bradesco.segmentMeans at h
  rw [Bradesco.lookup_map_pair (Bradesco.segMean customers_df attr) h]
  rfl

/-- C8 witness: for exactly two customers in segment 1 with incomes 100 and
200, the segment-1 mean income is 150. -/
theorem claim8_segment_mean_aggregation_witness :
    (Bradesco.segmentMeans Bradesco.exampleCustomers (·.income)).lookup 1 =
      some 150 ∧
    (150 : ℚ) =
      ((Bradesco.exampleCustomers.filter
          fun c => c.customer_segment == 1).map (·.income)).sum /
        ((Bradesco.exampleCustomers.filter
          fun c => c.customer_segment == 1).length : ℚ) :=
  have hl : (Bradesco.segmentMeans Bradesco.exampleCustomers
      (·.income)).lookup 1 = some 150 := by
    norm_num [Bradesco.segmentMeans, Bradesco.distinctVals, Bradesco.segMean,
      Bradesco.exampleCustomers, List.lookup]
  ⟨hl, claim8_segment_mean_aggregation Bradesco.exampleCustomers (·.income) 1
    150 hl⟩

/-- C10: on a dataset with no flagged-fraudulent transaction the dashboard
overview still renders: the fraudulent-transaction metric is 0 because the
defaulting lookup finds no `True` key (rather than failing), and the top-10
table takes the fallback branch — the informational notice plus the first
ten of the score-descending reordering of all transactions, which is a
permutation of the dataset sorted by descending fraud score. -/
theorem claim10_zero_fraud_dashboard
    (transactions_df : List Bradesco.TransactionRow)
    (h : ∀ t ∈ transactions_df, t.is_fraudulent = false) :
    Bradesco.fraudulentCount transactions_df = 0 ∧
    (Bradesco.value_counts
      (transactions_df.map (·.is_fraudulent))).lookup true = none ∧
    Bradesco.topFraudulent transactions_df =
      (true, (transactions_df.mergeSort Bradesco.byScoreDesc).take 10) ∧
    (transactions_df.mergeSort Bradesco.byScoreDesc).Perm transactions_df ∧
    (transactions_df.mergeSort Bradesco.byScoreDesc).Pairwise
      (fun a b => b.fraud_score ≤ a.fraud_score) := by
  have hmem : true ∉ transactions_df.map (·.is_fraudulent) := by
    intro hm
    obtain ⟨t, ht, hft⟩ := List.mem_map.mp hm
    rw [h t ht] at hft
    exact Bool.false_ne_true hft
  have hnone : (Bradesco.value_counts
      (transactions_df.map (·.is_fraudulent))).lookup true = none := by
    unfold Bradesco.value_counts
    exact Bradesco.lookup_map_pair_none _
      fun hm => hmem (Bradesco.mem_of_mem_distinctVals hm)
  have hfil : transactions_df.filter (fun t => t.is_fraudulent == true) = [] :=
    List.filter_eq_nil_iff.mpr fun t ht => by simp [h t ht]
  refine ⟨?_, hnone, ?_, List.mergeSort_perm _ _, ?_⟩
  · unfold Bradesco.fraudulentCount
    rw [hnone]
    rfl
  · unfold Bradesco.topFraudulent
    rw [hfil, List.mergeSort_nil]
    rfl
  · have hs := @List.sorted_mergeSort _ Bradesco.byScoreDesc
      (fun a b c hab hbc => by
        simp only [Bradesco.byScoreDesc, decide_eq_true_eq] at hab hbc ⊢
        exact le_trans hbc hab)
      (fun a b => by
        rcases le_total a.fraud_score b.fraud_score with h' | h' <;>
          simp [Bradesco.byScoreDesc, h'])
      transactions_df
    exact hs.imp fun hab => by
      simpa [Bradesco.byScoreDesc] using hab

/-- C10 witness: the two-transaction dataset with no flagged fraud yields
metric 0 and the fallback top-10 table with the notice. -/
theorem claim10_zero_fraud_dashboard_witness :
    Bradesco.fraudulentCount Bradesco.exampleTransactions = 0 ∧
    Bradesco.topFraudulent Bradesco.exampleTransactions =
      (true,
        (Bradesco.exampleTransactions.mergeSort Bradesco.byScoreDesc).take 10) := by
  have h := claim10_zero_fraud_dashboard Bradesco.exampleTransactions (by decide)
  exact ⟨h.1, h.2.2.1⟩
